import Mathlib

/-
Shallow embedding of the py-mpl115a2 driver (mpl115a2.py), a driver for the
I2C-connected Freescale MPL115A2 barometer.

Modelling choices:
* The quick2wire I2C transport is an external collaborator.  It is modelled as
  a `Transport`: a pair of response functions, one for a combined
  write-register-address/read-count transaction and one for a write
  transaction.  A transport failure (Python `IOError`) is an `Except.error`
  carrying the transport's own message string.
* Python floats are modelled as rationals (`ℚ`); every quantity the driver
  manipulates is a dyadic rational well inside the exactly-representable
  range, and Python `round(x, n)` is modelled by round-half-to-even on ℚ
  (`pyRound`), matching CPython's documented behaviour.
* Side effects are made explicit: each driver operation returns its result
  together with the list of `Action`s (I2C transactions and sleeps) it
  performed, in order.
* Python attribute lookup on the driver instance is modelled by `getAttr`
  over the attribute table built by `__init__`; looking up a name that
  `__init__` never set is an `AttributeError`, exactly as in Python.  This
  matters because `setReg` reads `self.regCfgA` and `self.regMode`, which
  `__init__` does not define.
* The transport contract guarantees that a successful combined transaction
  returns exactly the requested number of bytes; byte access in the driver is
  rendered with `List.getD` (the source indexes unconditionally).
-/

namespace Mpl115a2

/-- Byte sequences travelling over the transport. -/
abbrev Bytes := List ℕ

/-- The injected I2C transport collaborator.  `transactRead start count`
models `transaction(writing_bytes(addr, start), reading(addr, count))`;
`transactWrite reg byte` models `transaction(writing_bytes(addr, reg, byte))`.
An `Except.error s` is a transport `IOError` whose message is `s`. -/
structure Transport where
  transactRead : ℕ → ℕ → Except String Bytes
  transactWrite : ℕ → ℕ → Except String Unit

/-- One observable effect of the driver: a combined
write-register-address-then-read-count I2C transaction, a write transaction of
`[register, byte]`, or a blocking `time.sleep` of the given seconds. -/
inductive Action where
  | read : ℕ → ℕ → Action
  | write : ℕ → ℕ → Action
  | sleep : ℚ → Action
  deriving DecidableEq

/-! Register constants set on the instance by `__init__`. -/

def regPadcMSB : ℕ := 0x00
def regPadcLSB : ℕ := 0x01
def regTadcMSB : ℕ := 0x02
def regTadcLSB : ℕ := 0x03
def regA0MSB : ℕ := 0x04
def regA0LSB : ℕ := 0x05
def regB1MSB : ℕ := 0x06
def regB1LSB : ℕ := 0x07
def regB2MSB : ℕ := 0x08
def regB2LSB : ℕ := 0x09
def regC12MSB : ℕ := 0x0a
def regC12LSB : ℕ := 0x0b
def regConvert : ℕ := 0x12

/-- The register attributes `__init__` sets on the instance, by Python
attribute name.  Note that `regCfgA`, `regCfgB` and `regMode` are absent. -/
def instanceAttrs : List (String × ℕ) :=
  [("regPadcMSB", regPadcMSB), ("regPadcLSB", regPadcLSB),
   ("regTadcMSB", regTadcMSB), ("regTadcLSB", regTadcLSB),
   ("regA0MSB", regA0MSB), ("regA0LSB", regA0LSB),
   ("regB1MSB", regB1MSB), ("regB1LSB", regB1LSB),
   ("regB2MSB", regB2MSB), ("regB2LSB", regB2LSB),
   ("regC12MSB", regC12MSB), ("regC12LSB", regC12LSB),
   ("regConvert", regConvert)]

/-- Python attribute lookup on the driver instance: `none` models the
`AttributeError` raised when the attribute was never set. -/
def getAttr (name : String) : Option ℕ :=
  instanceAttrs.lookup name

/-- Message of the `IOError` re-raised by `__readReg`. -/
def readFailMsg : String :=
  "mpl115a2 IO Error: Failed to read MPL115A2 sensor on I2C bus."

/-- Message of the `IOError` re-raised by `__writeReg`. -/
def writeFailMsg : String :=
  "mpl115a2 IO Error: Failed to write to MPL115A2 sensor on I2C bus."

/-- `__readReg(register)`: one write-address/read-1-byte transaction; a
transport failure is caught and re-raised as an `IOError` with the driver's
read message.  Returns the byte read and the action trace. -/
def readReg (t : Transport) (register : ℕ) : Except String ℕ × List Action :=
  match t.transactRead register 1 with
  | .error _ => (.error readFailMsg, [.read register 1])
  | .ok res => (.ok (res.getD 0 0), [.read register 1])

/-- `__readRegRange(regStart, regEnd)`: one write-address/read-N transaction
with `N = regEnd - regStart + 1`.  The source wraps this transaction in no
try/except, so a transport failure propagates unchanged. -/
def readRegRange (t : Transport) (regStart regEnd : ℕ) :
    Except String Bytes × List Action :=
  let regCount := (regEnd - regStart) + 1
  (t.transactRead regStart regCount, [.read regStart regCount])

/-- `__writeReg(register, byte)`: one write transaction; a transport failure
is caught and re-raised as an `IOError` with the driver's write message. -/
def writeReg (t : Transport) (register byte : ℕ) :
    Except String Unit × List Action :=
  match t.transactWrite register byte with
  | .error _ => (.error writeFailMsg, [.write register byte])
  | .ok _ => (.ok (), [.write register byte])

/-- `__getSigned(unsigned, bits)` (the source defaults `bits` to 16):
two's-complement reinterpretation.  If `unsigned & (1 << (bits - 1))` is
nonzero the result is `unsigned - (1 << bits)`, else `unsigned`; Python ints
are unbounded, so the result lives in ℤ. -/
def getSigned (unsigned : ℕ) (bits : ℕ) : ℤ :=
  if unsigned &&& (1 <<< (bits - 1)) ≠ 0 then
    (unsigned : ℤ) - ((1 <<< bits : ℕ) : ℤ)
  else
    (unsigned : ℤ)

/-- Round-half-to-even of a rational to an integer (CPython's rounding of
`round`). -/
def roundHalfEven (x : ℚ) : ℤ :=
  let f : ℤ := ⌊x⌋
  let r : ℚ := x - (f : ℚ)
  if r < 1 / 2 then f
  else if 1 / 2 < r then f + 1
  else if f % 2 = 0 then f else f + 1

/-- Python `round(x, ndigits)` on our rational model of floats. -/
def pyRound (x : ℚ) (ndigits : ℕ) : ℚ :=
  (roundHalfEven (x * 10 ^ ndigits) : ℚ) / 10 ^ ndigits

/-! Decoding steps of `getPressTemp`, named per intermediate value of the
source.  `cb` are the 8 coefficient bytes read from `regA0MSB..regC12LSB`,
`ab` the 4 ADC bytes read from `regPadcMSB..regTadcLSB`. -/

/-- `a0 = (coefficientBytes[0] << 8) | coefficientBytes[1]`. -/
def a0raw (cb : Bytes) : ℕ := (cb.getD 0 0 <<< 8) ||| cb.getD 1 0

/-- `b1 = (coefficientBytes[2] << 8) | coefficientBytes[3]`. -/
def b1raw (cb : Bytes) : ℕ := (cb.getD 2 0 <<< 8) ||| cb.getD 3 0

/-- `b2 = (coefficientBytes[4] << 8) | coefficientBytes[5]`. -/
def b2raw (cb : Bytes) : ℕ := (cb.getD 4 0 <<< 8) ||| cb.getD 5 0

/-- `c12 = (((coefficientBytes[6] << 8) | coefficientBytes[7]) >> 2)`. -/
def c12raw (cb : Bytes) : ℕ := ((cb.getD 6 0 <<< 8) ||| cb.getD 7 0) >>> 2

/-- `pAdc = (((adcBytes[0] << 8) | adcBytes[1]) >> 6)`. -/
def pAdc (ab : Bytes) : ℕ := ((ab.getD 0 0 <<< 8) ||| ab.getD 1 0) >>> 6

/-- `tAdc = (((adcBytes[2] << 8) | adcBytes[3]) >> 6)`. -/
def tAdc (ab : Bytes) : ℕ := ((ab.getD 2 0 <<< 8) ||| ab.getD 3 0) >>> 6

/-- `a0 = self.__getSigned(a0)` (default width 16). -/
def a0s (cb : Bytes) : ℤ := getSigned (a0raw cb) 16

/-- `b1 = self.__getSigned(b1)` (default width 16). -/
def b1s (cb : Bytes) : ℤ := getSigned (b1raw cb) 16

/-- `b2 = self.__getSigned(b2)` (default width 16). -/
def b2s (cb : Bytes) : ℤ := getSigned (b2raw cb) 16

/-- `c12 = self.__getSigned(c12, 14)`. -/
def c12s (cb : Bytes) : ℤ := getSigned (c12raw cb) 14

/-- `a0 = a0 / 8.0`. -/
def a0f (cb : Bytes) : ℚ := (a0s cb : ℚ) / 8

/-- `b1 = b1 / 8192.0`. -/
def b1f (cb : Bytes) : ℚ := (b1s cb : ℚ) / 8192

/-- `b2 = b2 / 16384.0`. -/
def b2f (cb : Bytes) : ℚ := (b2s cb : ℚ) / 16384

/-- `c12 = c12 / 4194304.0`. -/
def c12f (cb : Bytes) : ℚ := (c12s cb : ℚ) / 4194304

/-- `pComp = a0 + (b1 + c12 * tAdc) * pAdc + b2 * tAdc` on the scaled
coefficients. -/
def pComp (cb ab : Bytes) : ℚ :=
  a0f cb + (b1f cb + c12f cb * (tAdc ab : ℚ)) * (pAdc ab : ℚ)
    + b2f cb * (tAdc ab : ℚ)

/-- `retVal[0] = round((pComp * (65.0 / 1023.0) + 50), 2)`. -/
def pressureKPa (cb ab : Bytes) : ℚ :=
  pyRound (pComp cb ab * (65 / 1023) + 50) 2

/-- `retVal[1] = round(((tAdc - 498.0) / -5.35 + 25.0), 1)`. -/
def temperatureC (ab : Bytes) : ℚ :=
  pyRound (((tAdc ab : ℚ) - 498) / (-(535 / 100)) + 25) 1

/-- The argument of `time.sleep` in `getPressTemp`: 0.04 seconds. -/
def conversionWait : ℚ := 4 / 100

/-- `getPressTemp()`: coefficient range read, conversion-trigger write,
40 ms sleep, ADC range read, then decode and compute; any transport failure
aborts the call at that point.  Returns the Python list
`[pressureKPa, temperatureC]` (or the error) plus the action trace. -/
def getPressTemp (t : Transport) : Except String (List ℚ) × List Action :=
  match readRegRange t regA0MSB regC12LSB with
  | (.error e, tr1) => (.error e, tr1)
  | (.ok coefficientBytes, tr1) =>
    match writeReg t regConvert 0x00 with
    | (.error e, tr2) => (.error e, tr1 ++ tr2)
    | (.ok _, tr2) =>
      match readRegRange t regPadcMSB regTadcLSB with
      | (.error e, tr4) =>
          (.error e, tr1 ++ tr2 ++ [.sleep conversionWait] ++ tr4)
      | (.ok adcBytes, tr4) =>
          (.ok [pressureKPa coefficientBytes adcBytes,
                temperatureC adcBytes],
           tr1 ++ tr2 ++ [.sleep conversionWait] ++ tr4)

/-- Outcome of `setReg`: the write was attempted (with the `writeReg`
result), or a `ValueError` was raised, or attribute lookup raised
`AttributeError` on the named attribute. -/
inductive SetRegOutcome where
  | completed : Except String Unit → SetRegOutcome
  | valueError : String → SetRegOutcome
  | attributeError : String → SetRegOutcome

/-- `setReg(register, value)`: guard `(register >= self.regCfgA) and
(register <= self.regMode)` then `__writeReg`, else raise `ValueError`.
Python evaluates `self.regCfgA` first, so a missing attribute raises
`AttributeError` before any comparison or I/O. -/
def setReg (t : Transport) (register value : ℕ) :
    SetRegOutcome × List Action :=
  match getAttr "regCfgA" with
  | none => (.attributeError "regCfgA", [])
  | some regCfgA =>
    if regCfgA ≤ register then
      match getAttr "regMode" with
      | none => (.attributeError "regMode", [])
      | some regMode =>
        if register ≤ regMode then
          match writeReg t register value with
          | (res, tr) => (.completed res, tr)
        else
          (.valueError "MPL115A2 register must be writable to set it.", [])
    else
      (.valueError "MPL115A2 register must be writable to set it.", [])

/-! Concrete transports for witnesses and counterexamples.  The coefficient
and ADC byte sequences are the illustrative vectors of the design notes. -/

/-- Example coefficient bytes for registers 0x04..0x0b. -/
def goodCoeffBytes : Bytes := [0x3e, 0xe8, 0x01, 0x3c, 0x00, 0x00, 0x7d, 0x98]

/-- Example ADC bytes for registers 0x00..0x03. -/
def goodAdcBytes : Bytes := [0x6c, 0x00, 0x7a, 0x40]

/-- A healthy transport answering the two range reads with the example
bytes and accepting every write. -/
def okTransport : Transport :=
  ⟨fun s c =>
    if s = 4 ∧ c = 8 then .ok goodCoeffBytes
    else if s = 0 ∧ c = 4 then .ok goodAdcBytes
    else .error "unexpected transaction",
   fun _ _ => .ok ()⟩

/-- A transport on which every transaction fails, with a raw bus-level
message that mentions neither the device nor read/write. -/
def rawFailTransport : Transport :=
  ⟨fun _ _ => .error "Remote I/O error", fun _ _ => .error "Remote I/O error"⟩

/-- A transport on which the coefficient read succeeds but the
conversion-trigger write fails. -/
def failWriteTransport : Transport :=
  ⟨fun s c =>
    if s = 4 ∧ c = 8 then .ok goodCoeffBytes
    else if s = 0 ∧ c = 4 then .ok goodAdcBytes
    else .error "unexpected transaction",
   fun _ _ => .error "Remote I/O error"⟩

/-- A transport on which the coefficient read and the write succeed but the
ADC read fails. -/
def failAdcTransport : Transport :=
  ⟨fun s c =>
    if s = 4 ∧ c = 8 then .ok goodCoeffBytes
    else .error "Remote I/O error",
   fun _ _ => .ok ()⟩

/-! Helper lemmas. -/

/-- Shifting left by `i` then or-ing in a value below `2 ^ i` is plain
positional arithmetic. -/
lemma shiftLeft_lor_eq (a b i : ℕ) (h : b < 2 ^ i) :
    (a <<< i) ||| b = 2 ^ i * a + b := by
  apply Nat.eq_of_testBit_eq
  intro j
  rw [Nat.testBit_lor, Nat.testBit_shiftLeft, Nat.testBit_mul_pow_two_add a h j]
  by_cases hj : j < i
  · simp [hj, Nat.not_le.mpr hj]
  · have hb : b.testBit j = false :=
      Nat.testBit_lt_two_pow
        (lt_of_lt_of_le h (Nat.pow_le_pow_right (by norm_num) (Nat.le_of_not_lt hj)))
    simp [hj, Nat.le_of_not_lt hj, hb]

/-- `getSigned` in terms of the top bit of the field. -/
lemma getSigned_eq_testBit (x bits : ℕ) :
    getSigned x bits =
      if x.testBit (bits - 1) then (x : ℤ) - 2 ^ bits else (x : ℤ) := by
  unfold getSigned
  rw [Nat.shiftLeft_eq, one_mul, Nat.and_two_pow, Nat.shiftLeft_eq, one_mul]
  rcases hb : x.testBit (bits - 1) with _ | _ <;>
    simp [hb, (Nat.two_pow_pos (bits - 1)).ne']

/-- Range of `getSigned` at width 16. -/
lemma getSigned_sixteen_bounds (x : ℕ) (h : x < 65536) :
    -32768 ≤ getSigned x 16 ∧ getSigned x 16 ≤ 32767 := by
  rw [getSigned_eq_testBit, Nat.testBit_to_div_mod]
  norm_num
  split <;> omega

/-- Range of `getSigned` at width 14. -/
lemma getSigned_fourteen_bounds (x : ℕ) (h : x < 16384) :
    -8192 ≤ getSigned x 14 ∧ getSigned x 14 ≤ 8191 := by
  rw [getSigned_eq_testBit, Nat.testBit_to_div_mod]
  norm_num
  split <;> omega

/-- A byte list bounded everywhere is bounded at every `getD` access. -/
lemma getD_lt_of_forall (l : Bytes) (h : ∀ x ∈ l, x < 256) (i : ℕ) :
    l.getD i 0 < 256 := by
  rcases Nat.lt_or_ge i l.length with hi | hi
  · rw [List.getD_eq_getElem l 0 hi]
    exact h _ (List.getElem_mem hi)
  · rw [List.getD_eq_default l 0 hi]
    norm_num

/-- The byte count of the coefficient range read. -/
lemma coeffCount : regC12LSB - regA0MSB + 1 = 8 := rfl

/-- The byte count of the ADC range read. -/
lemma adcCount : regTadcLSB - regPadcMSB + 1 = 4 := rfl

/-- Big-endian assembly of the a0 register pair, arithmetically. -/
lemma a0raw_eq (cb : Bytes) (h : cb.getD 1 0 < 256) :
    a0raw cb = 256 * cb.getD 0 0 + cb.getD 1 0 := by
  have h2 : cb.getD 1 0 < 2 ^ 8 := by
    exact lt_of_lt_of_le h (by norm_num)
  rw [a0raw, shiftLeft_lor_eq _ _ 8 h2]
  norm_num

/-- Big-endian assembly of the b1 register pair, arithmetically. -/
lemma b1raw_eq (cb : Bytes) (h : cb.getD 3 0 < 256) :
    b1raw cb = 256 * cb.getD 2 0 + cb.getD 3 0 := by
  have h2 : cb.getD 3 0 < 2 ^ 8 := by
    exact lt_of_lt_of_le h (by norm_num)
  rw [b1raw, shiftLeft_lor_eq _ _ 8 h2]
  norm_num

/-- Big-endian assembly of the b2 register pair, arithmetically. -/
lemma b2raw_eq (cb : Bytes) (h : cb.getD 5 0 < 256) :
    b2raw cb = 256 * cb.getD 4 0 + cb.getD 5 0 := by
  have h2 : cb.getD 5 0 < 2 ^ 8 := by
    exact lt_of_lt_of_le h (by norm_num)
  rw [b2raw, shiftLeft_lor_eq _ _ 8 h2]
  norm_num

/-- Big-endian assembly plus the 2-bit padding shift of the c12 pair,
arithmetically. -/
lemma c12raw_eq (cb : Bytes) (h : cb.getD 7 0 < 256) :
    c12raw cb = (256 * cb.getD 6 0 + cb.getD 7 0) / 4 := by
  have h2 : cb.getD 7 0 < 2 ^ 8 := by
    exact lt_of_lt_of_le h (by norm_num)
  rw [c12raw, shiftLeft_lor_eq _ _ 8 h2, Nat.shiftRight_eq_div_pow]
  norm_num

/-- Big-endian assembly plus the 6-bit justification shift of the pressure
ADC pair, arithmetically. -/
lemma pAdc_eq (ab : Bytes) (h : ab.getD 1 0 < 256) :
    pAdc ab = (256 * ab.getD 0 0 + ab.getD 1 0) / 64 := by
  have h2 : ab.getD 1 0 < 2 ^ 8 := by
    exact lt_of_lt_of_le h (by norm_num)
  rw [pAdc, shiftLeft_lor_eq _ _ 8 h2, Nat.shiftRight_eq_div_pow]
  norm_num

/-- Big-endian assembly plus the 6-bit justification shift of the
temperature ADC pair, arithmetically. -/
lemma tAdc_eq (ab : Bytes) (h : ab.getD 3 0 < 256) :
    tAdc ab = (256 * ab.getD 2 0 + ab.getD 3 0) / 64 := by
  have h2 : ab.getD 3 0 < 2 ^ 8 := by
    exact lt_of_lt_of_le h (by norm_num)
  rw [tAdc, shiftLeft_lor_eq _ _ 8 h2, Nat.shiftRight_eq_div_pow]
  norm_num

/-- Inversion of a successful `getPressTemp` run: the transport answered
both range reads, the returned list is the pressure/temperature pair decoded
from those answers, and the trace is coefficient read, trigger write, sleep,
ADC read. -/
lemma getPressTemp_ok_inv (t : Transport) (r : List ℚ) (tr : List Action)
    (h : getPressTemp t = (.ok r, tr)) :
    ∃ cb ab, t.transactRead regA0MSB 8 = .ok cb ∧
      t.transactRead regPadcMSB 4 = .ok ab ∧
      r = [pressureKPa cb ab, temperatureC ab] ∧
      tr = [.read regA0MSB 8, .write regConvert 0x00, .sleep conversionWait,
            .read regPadcMSB 4] := by
  simp only [getPressTemp, readRegRange, writeReg, coeffCount, adcCount] at h
  rcases hc : t.transactRead regA0MSB 8 with e | cb <;> rw [hc] at h
  · simp at h
  · rcases hw : t.transactWrite regConvert 0x00 with e | u <;> rw [hw] at h
    · simp at h
    · cases u
      rcases ha : t.transactRead regPadcMSB 4 with e | ab <;> rw [ha] at h
      · simp at h
      · simp only [Prod.mk.injEq, Except.ok.injEq, List.cons_append,
          List.nil_append] at h
        exact ⟨cb, ab, rfl, rfl, h.1.symm, h.2.symm⟩

/-! Claim theorems. -/

/-- C1: the claim says `setRegister(addr, value)` succeeds with exactly one
write transaction for addr in [regCfgA(0x00), regMode(0x02)] and otherwise
raises `InvalidArgument` with no I/O; in particular addr 0x01 succeeds and
addr 0x05 raises `InvalidArgument`.  The code cannot do either: `__init__`
never defines `regCfgA` (nor `regMode`), so the guard's very first attribute
access raises `AttributeError` for every addr, before any comparison or I/O.
This theorem evaluates the code at the claim's own inputs: both calls raise
`AttributeError` on `regCfgA` and perform zero transactions. -/
theorem c1_setReg_always_attribute_error (t : Transport) (value : ℕ) :
    setReg t 0x01 value = (.attributeError "regCfgA", []) ∧
    setReg t 0x05 value = (.attributeError "regCfgA", []) :=
  ⟨rfl, rfl⟩

/-- C3: for every x in [0, 2^bits), `getSigned x bits` (the embedding of
`__getSigned(unsigned, bits)`) returns x − 2^bits when bit (bits−1) of x is
set and x unchanged otherwise. -/
theorem c3_getSigned_twos_complement (x bits : ℕ) (hx : x < 2 ^ bits) :
    getSigned x bits =
      if x.testBit (bits - 1) then (x : ℤ) - 2 ^ bits else (x : ℤ) :=
  getSigned_eq_testBit x bits

/-- Witness for C3 at the claim's three examples: 0x8000 and 0x7FFF at width
16, 0x2000 at width 14. -/
theorem c3_witness :
    (0x8000 : ℕ) < 2 ^ 16 ∧ getSigned 0x8000 16 = -32768 ∧
    (0x7fff : ℕ) < 2 ^ 16 ∧ getSigned 0x7fff 16 = 32767 ∧
    (0x2000 : ℕ) < 2 ^ 14 ∧ getSigned 0x2000 14 = -8192 := by
  refine ⟨by norm_num, ?_, by norm_num, ?_, by norm_num, ?_⟩
  · rw [c3_getSigned_twos_complement 0x8000 16 (by norm_num)]; decide
  · rw [c3_getSigned_twos_complement 0x7fff 16 (by norm_num)]; decide
  · rw [c3_getSigned_twos_complement 0x2000 14 (by norm_num)]; decide

/-- C4: on transport bytes (each below 256), the decode pipeline of
`getPressTemp` assembles big-endian 16-bit raw values, right-shifts c12 by 2
and the ADC words by 6, sign-extends a0/b1/b2 at width 16 and c12 at width
14, and scales by 8, 8192, 16384 and 4194304 respectively. -/
theorem c4_decode_pipeline (cb ab : Bytes)
    (hcb : ∀ x ∈ cb, x < 256) (hab : ∀ x ∈ ab, x < 256) :
    a0raw cb = 256 * cb.getD 0 0 + cb.getD 1 0 ∧
    b1raw cb = 256 * cb.getD 2 0 + cb.getD 3 0 ∧
    b2raw cb = 256 * cb.getD 4 0 + cb.getD 5 0 ∧
    c12raw cb = (256 * cb.getD 6 0 + cb.getD 7 0) / 4 ∧
    pAdc ab = (256 * ab.getD 0 0 + ab.getD 1 0) / 64 ∧
    tAdc ab = (256 * ab.getD 2 0 + ab.getD 3 0) / 64 ∧
    a0s cb = getSigned (a0raw cb) 16 ∧
    b1s cb = getSigned (b1raw cb) 16 ∧
    b2s cb = getSigned (b2raw cb) 16 ∧
    c12s cb = getSigned (c12raw cb) 14 ∧
    a0f cb = (a0s cb : ℚ) / 8 ∧
    b1f cb = (b1s cb : ℚ) / 8192 ∧
    b2f cb = (b2s cb : ℚ) / 16384 ∧
    c12f cb = (c12s cb : ℚ) / 4194304 :=
  ⟨a0raw_eq cb (getD_lt_of_forall cb hcb 1),
   b1raw_eq cb (getD_lt_of_forall cb hcb 3),
   b2raw_eq cb (getD_lt_of_forall cb hcb 5),
   c12raw_eq cb (getD_lt_of_forall cb hcb 7),
   pAdc_eq ab (getD_lt_of_forall ab hab 1),
   tAdc_eq ab (getD_lt_of_forall ab hab 3),
   rfl, rfl, rfl, rfl, rfl, rfl, rfl, rfl⟩

/-- Witness for C4 at the example byte vectors. -/
theorem c4_witness :
    (∀ x ∈ goodCoeffBytes, x < 256) ∧ (∀ x ∈ goodAdcBytes, x < 256) ∧
    (a0raw goodCoeffBytes =
        256 * goodCoeffBytes.getD 0 0 + goodCoeffBytes.getD 1 0 ∧
     b1raw goodCoeffBytes =
        256 * goodCoeffBytes.getD 2 0 + goodCoeffBytes.getD 3 0 ∧
     b2raw goodCoeffBytes =
        256 * goodCoeffBytes.getD 4 0 + goodCoeffBytes.getD 5 0 ∧
     c12raw goodCoeffBytes =
        (256 * goodCoeffBytes.getD 6 0 + goodCoeffBytes.getD 7 0) / 4 ∧
     pAdc goodAdcBytes =
        (256 * goodAdcBytes.getD 0 0 + goodAdcBytes.getD 1 0) / 64 ∧
     tAdc goodAdcBytes =
        (256 * goodAdcBytes.getD 2 0 + goodAdcBytes.getD 3 0) / 64 ∧
     a0s goodCoeffBytes = getSigned (a0raw goodCoeffBytes) 16 ∧
     b1s goodCoeffBytes = getSigned (b1raw goodCoeffBytes) 16 ∧
     b2s goodCoeffBytes = getSigned (b2raw goodCoeffBytes) 16 ∧
     c12s goodCoeffBytes = getSigned (c12raw goodCoeffBytes) 14 ∧
     a0f goodCoeffBytes = (a0s goodCoeffBytes : ℚ) / 8 ∧
     b1f goodCoeffBytes = (b1s goodCoeffBytes : ℚ) / 8192 ∧
     b2f goodCoeffBytes = (b2s goodCoeffBytes : ℚ) / 16384 ∧
     c12f goodCoeffBytes = (c12s goodCoeffBytes : ℚ) / 4194304) :=
  ⟨by decide, by decide,
   c4_decode_pipeline goodCoeffBytes goodAdcBytes (by decide) (by decide)⟩

/-- C9: with every transport byte in [0, 255], the decoded intermediate
values satisfy pAdc, tAdc ∈ [0, 1023] (lower bounds hold in ℕ), a0, b1, b2 ∈
[−32768, 32767] and c12 ∈ [−8192, 8191]. -/
theorem c9_decoded_ranges (cb ab : Bytes)
    (hcb : ∀ x ∈ cb, x < 256) (hab : ∀ x ∈ ab, x < 256) :
    pAdc ab ≤ 1023 ∧ tAdc ab ≤ 1023 ∧
    (-32768 ≤ a0s cb ∧ a0s cb ≤ 32767) ∧
    (-32768 ≤ b1s cb ∧ b1s cb ≤ 32767) ∧
    (-32768 ≤ b2s cb ∧ b2s cb ≤ 32767) ∧
    (-8192 ≤ c12s cb ∧ c12s cb ≤ 8191) := by
  have g0 := getD_lt_of_forall cb hcb 0
  have g1 := getD_lt_of_forall cb hcb 1
  have g2 := getD_lt_of_forall cb hcb 2
  have g3 := getD_lt_of_forall cb hcb 3
  have g4 := getD_lt_of_forall cb hcb 4
  have g5 := getD_lt_of_forall cb hcb 5
  have g6 := getD_lt_of_forall cb hcb 6
  have g7 := getD_lt_of_forall cb hcb 7
  have k0 := getD_lt_of_forall ab hab 0
  have k1 := getD_lt_of_forall ab hab 1
  have k2 := getD_lt_of_forall ab hab 2
  have k3 := getD_lt_of_forall ab hab 3
  refine ⟨?_, ?_, ?_, ?_, ?_, ?_⟩
  · rw [pAdc_eq ab k1]; omega
  · rw [tAdc_eq ab k3]; omega
  · have hlt : a0raw cb < 65536 := by rw [a0raw_eq cb g1]; omega
    exact getSigned_sixteen_bounds _ hlt
  · have hlt : b1raw cb < 65536 := by rw [b1raw_eq cb g3]; omega
    exact getSigned_sixteen_bounds _ hlt
  · have hlt : b2raw cb < 65536 := by rw [b2raw_eq cb g5]; omega
    exact getSigned_sixteen_bounds _ hlt
  · have hlt : c12raw cb < 16384 := by rw [c12raw_eq cb g7]; omega
    exact getSigned_fourteen_bounds _ hlt

/-- Witness for C9 at the example byte vectors. -/
theorem c9_witness :
    (∀ x ∈ goodCoeffBytes, x < 256) ∧ (∀ x ∈ goodAdcBytes, x < 256) ∧
    (pAdc goodAdcBytes ≤ 1023 ∧ tAdc goodAdcBytes ≤ 1023 ∧
     (-32768 ≤ a0s goodCoeffBytes ∧ a0s goodCoeffBytes ≤ 32767) ∧
     (-32768 ≤ b1s goodCoeffBytes ∧ b1s goodCoeffBytes ≤ 32767) ∧
     (-32768 ≤ b2s goodCoeffBytes ∧ b2s goodCoeffBytes ≤ 32767) ∧
     (-8192 ≤ c12s goodCoeffBytes ∧ c12s goodCoeffBytes ≤ 8191)) :=
  ⟨by decide, by decide,
   c9_decoded_ranges goodCoeffBytes goodAdcBytes (by decide) (by decide)⟩

/-- C2: on a transport that answers the coefficient read with bytes cb,
accepts the trigger write and answers the ADC read with bytes ab,
`getPressTemp` returns exactly
round(pComp·(65/1023) + 50, 2) and round((tAdc − 498)/(−5.35) + 25, 1),
with pComp = a0f + (b1f + c12f·tAdc)·pAdc + b2f·tAdc over the decoded scaled
coefficients and 10-bit ADC counts. -/
theorem c2_measurement_formula (t : Transport) (cb ab : Bytes)
    (hc : t.transactRead regA0MSB 8 = .ok cb)
    (hw : t.transactWrite regConvert 0 = .ok ())
    (ha : t.transactRead regPadcMSB 4 = .ok ab) :
    getPressTemp t =
      (.ok [pyRound ((a0f cb + (b1f cb + c12f cb * (tAdc ab : ℚ)) *
                (pAdc ab : ℚ) + b2f cb * (tAdc ab : ℚ)) * (65 / 1023) + 50) 2,
            pyRound (((tAdc ab : ℚ) - 498) / (-(535 / 100)) + 25) 1],
       [.read regA0MSB 8, .write regConvert 0x00, .sleep conversionWait,
        .read regPadcMSB 4]) := by
  simp only [getPressTemp, readRegRange, writeReg, coeffCount, adcCount,
    hc, hw, ha]
  rfl

/-- Witness for C2 on the healthy example transport. -/
theorem c2_witness :
    getPressTemp okTransport =
      (.ok [pyRound ((a0f goodCoeffBytes +
                (b1f goodCoeffBytes + c12f goodCoeffBytes *
                  (tAdc goodAdcBytes : ℚ)) * (pAdc goodAdcBytes : ℚ) +
                b2f goodCoeffBytes * (tAdc goodAdcBytes : ℚ)) *
              (65 / 1023) + 50) 2,
            pyRound (((tAdc goodAdcBytes : ℚ) - 498) / (-(535 / 100)) + 25) 1],
       [.read regA0MSB 8, .write regConvert 0x00, .sleep conversionWait,
        .read regPadcMSB 4]) :=
  c2_measurement_formula okTransport goodCoeffBytes goodAdcBytes rfl rfl rfl

/-- C5: a transport failure on the coefficient range read aborts
`getPressTemp` with only that one transaction attempted — in particular no
conversion-trigger write is issued and the transport error is surfaced; a
failure on the trigger write aborts after exactly those two transactions
(surfaced as the driver's write `IOError`); a failure on the ADC range read
aborts with no measurement and the error surfaced.  In every case no retry
occurs: each transaction appears at most once in the trace. -/
theorem c5_transport_failure_aborts (t : Transport) (msg : String) :
    (t.transactRead regA0MSB 8 = .error msg →
      getPressTemp t = (.error msg, [.read regA0MSB 8])) ∧
    (∀ cb, t.transactRead regA0MSB 8 = .ok cb →
      t.transactWrite regConvert 0 = .error msg →
      getPressTemp t =
        (.error writeFailMsg, [.read regA0MSB 8, .write regConvert 0x00])) ∧
    (∀ cb, t.transactRead regA0MSB 8 = .ok cb →
      t.transactWrite regConvert 0 = .ok () →
      t.transactRead regPadcMSB 4 = .error msg →
      getPressTemp t =
        (.error msg, [.read regA0MSB 8, .write regConvert 0x00,
          .sleep conversionWait, .read regPadcMSB 4])) := by
  refine ⟨fun hc => ?_, fun cb hc hw => ?_, fun cb hc hw ha => ?_⟩
  · simp only [getPressTemp, readRegRange, writeReg, coeffCount, adcCount, hc]
  · simp only [getPressTemp, readRegRange, writeReg, coeffCount, adcCount,
      hc, hw]
    rfl
  · simp only [getPressTemp, readRegRange, writeReg, coeffCount, adcCount,
      hc, hw, ha]
    rfl

/-- Witness for C5: one transport failing on the coefficient read, one
failing on the trigger write, one failing on the ADC read. -/
theorem c5_witness :
    getPressTemp rawFailTransport =
      (.error "Remote I/O error", [.read regA0MSB 8]) ∧
    getPressTemp failWriteTransport =
      (.error writeFailMsg, [.read regA0MSB 8, .write regConvert 0x00]) ∧
    getPressTemp failAdcTransport =
      (.error "Remote I/O error", [.read regA0MSB 8, .write regConvert 0x00,
        .sleep conversionWait, .read regPadcMSB 4]) :=
  ⟨(c5_transport_failure_aborts rawFailTransport "Remote I/O error").1 rfl,
   (c5_transport_failure_aborts failWriteTransport
      "Remote I/O error").2.1 goodCoeffBytes rfl rfl,
   (c5_transport_failure_aborts failAdcTransport
      "Remote I/O error").2.2 goodCoeffBytes rfl rfl rfl⟩

/-- C6: every successful `getPressTemp` run performs exactly one atomic
8-byte range read of registers 0x04..0x0b, then one write of 0x00 to
register 0x12, then one atomic 4-byte range read of registers 0x00..0x03 —
nothing else, in that order, the coefficients read fresh within the call. -/
theorem c6_io_sequence (t : Transport) (r : List ℚ) (tr : List Action)
    (h : getPressTemp t = (.ok r, tr)) :
    tr = [.read regA0MSB 8, .write regConvert 0x00, .sleep conversionWait,
          .read regPadcMSB 4] := by
  obtain ⟨cb, ab, -, -, -, htr⟩ := getPressTemp_ok_inv t r tr h
  exact htr

/-- Witness for C6 on the healthy example transport. -/
theorem c6_witness :
    (getPressTemp okTransport).2 =
      [.read regA0MSB 8, .write regConvert 0x00, .sleep conversionWait,
       .read regPadcMSB 4] :=
  c6_io_sequence okTransport
    [pressureKPa goodCoeffBytes goodAdcBytes, temperatureC goodAdcBytes]
    (getPressTemp okTransport).2 rfl

/-- C7 counterexample: the claim says every transport failure — range reads
included — reaches the caller as an `IOError` carrying the driver's
read/write/device description.  But `__readRegRange` wraps its transaction
in no try/except, so on a transport whose failure message is a bare
"Remote I/O error" the caller of `getPressTemp` receives exactly that
message, which is neither of the driver's two descriptive messages. -/
theorem c7_counterexample :
    getPressTemp rawFailTransport =
      (.error "Remote I/O error", [.read regA0MSB 8]) ∧
    "Remote I/O error" ≠ readFailMsg ∧
    "Remote I/O error" ≠ writeFailMsg := by
  refine ⟨rfl, ?_, ?_⟩ <;> decide

/-- C7 as amended: failures in the single-register read and in the register
write are re-raised as `IOError`s with the driver's descriptive read/write
message, while a failure in the range read propagates the transport's own
`IOError` unchanged, with no added description. -/
theorem c7_error_descriptions (t : Transport)
    (register byte regStart regEnd : ℕ) (msg : String) :
    (t.transactRead register 1 = .error msg →
      readReg t register = (.error readFailMsg, [.read register 1])) ∧
    (t.transactWrite register byte = .error msg →
      writeReg t register byte =
        (.error writeFailMsg, [.write register byte])) ∧
    (t.transactRead regStart (regEnd - regStart + 1) = .error msg →
      readRegRange t regStart regEnd =
        (.error msg, [.read regStart (regEnd - regStart + 1)])) := by
  refine ⟨fun hr => ?_, fun hw => ?_, fun hg => ?_⟩
  · simp only [readReg, hr]
  · simp only [writeReg, hw]
  · simp only [readRegRange, hg]

/-- Witness for the amended C7 on the all-failing transport. -/
theorem c7_witness :
    readReg rawFailTransport regConvert =
      (.error readFailMsg, [.read regConvert 1]) ∧
    writeReg rawFailTransport regConvert 0x00 =
      (.error writeFailMsg, [.write regConvert 0x00]) ∧
    readRegRange rawFailTransport regA0MSB regC12LSB =
      (.error "Remote I/O error", [.read regA0MSB 8]) := by
  obtain ⟨h1, h2, h3⟩ :=
    c7_error_descriptions rawFailTransport regConvert 0x00 regA0MSB regC12LSB
      "Remote I/O error"
  exact ⟨h1 rfl, h2 rfl, h3 rfl⟩

/-- C8: in every successful `getPressTemp` run a blocking sleep occurs
strictly between the conversion-trigger write and the ADC range read, its
duration is the fixed constant `conversionWait` (the driver takes no timing
parameter), and that duration is of at least 40 ms. -/
theorem c8_conversion_wait (t : Transport) (r : List ℚ) (tr : List Action)
    (h : getPressTemp t = (.ok r, tr)) :
    tr = [.read regA0MSB 8, .write regConvert 0x00, .sleep conversionWait,
          .read regPadcMSB 4] ∧
    conversionWait ≥ 40 / 1000 := by
  obtain ⟨cb, ab, -, -, -, htr⟩ := getPressTemp_ok_inv t r tr h
  exact ⟨htr, by norm_num [conversionWait]⟩

/-- Witness for C8 on the healthy example transport. -/
theorem c8_witness :
    (getPressTemp okTransport).2 =
      [.read regA0MSB 8, .write regConvert 0x00, .sleep conversionWait,
       .read regPadcMSB 4] ∧
    conversionWait ≥ 40 / 1000 :=
  c8_conversion_wait okTransport
    [pressureKPa goodCoeffBytes goodAdcBytes, temperatureC goodAdcBytes]
    (getPressTemp okTransport).2 rfl

/-- C10: `getPressTemp` is deterministic in the transport's answers — two
successful runs whose transports return the same bytes on the coefficient
range read and on the ADC range read return equal results — and each
successful run returns exactly a two-element list. -/
theorem c10_deterministic (t1 t2 : Transport) (r1 r2 : List ℚ)
    (tr1 tr2 : List Action)
    (hco : t1.transactRead regA0MSB 8 = t2.transactRead regA0MSB 8)
    (hadc : t1.transactRead regPadcMSB 4 = t2.transactRead regPadcMSB 4)
    (h1 : getPressTemp t1 = (.ok r1, tr1))
    (h2 : getPressTemp t2 = (.ok r2, tr2)) :
    r1 = r2 ∧ r1.length = 2 := by
  obtain ⟨cb1, ab1, hc1, ha1, hr1, -⟩ := getPressTemp_ok_inv t1 r1 tr1 h1
  obtain ⟨cb2, ab2, hc2, ha2, hr2, -⟩ := getPressTemp_ok_inv t2 r2 tr2 h2
  rw [hco, hc2] at hc1
  rw [hadc, ha2] at ha1
  cases hc1
  cases ha1
  rw [hr1, hr2]
  exact ⟨rfl, rfl⟩

/-- Witness for C10: the same healthy transport on both sides. -/
theorem c10_witness :
    (getPressTemp okTransport).1 = .ok [pressureKPa goodCoeffBytes
      goodAdcBytes, temperatureC goodAdcBytes] ∧
    [pressureKPa goodCoeffBytes goodAdcBytes,
      temperatureC goodAdcBytes].length = 2 :=
  ⟨rfl,
   (c10_deterministic okTransport okTransport
      [pressureKPa goodCoeffBytes goodAdcBytes, temperatureC goodAdcBytes]
      [pressureKPa goodCoeffBytes goodAdcBytes, temperatureC goodAdcBytes]
      (getPressTemp okTransport).2 (getPressTemp okTransport).2
      rfl rfl rfl rfl).2⟩

end Mpl115a2
